import Mathlib

/-!
Shallow embedding of `src/utils/tcx_parser.py` (the activity-trace reducer).

Modelling decisions:
* Python floats are modelled as rationals (`ℚ`); `round(x, p)` is modelled by
  `roundTo p`, Python's round-half-to-even on `x * 10^p`.
* A `Trackpoint` carries, for each of the five optional XML sub-elements, an
  `Option (Option _)`: `none` means the element is absent or has empty text,
  `some none` means the text is present but fails to parse as a number or
  timestamp, `some (some v)` means it parses to the value `v`.
* A parsed timestamp (`Timestamp`) is its absolute value in seconds together
  with an awareness flag: `datetime.fromisoformat` yields an offset-aware
  value when the text carries an offset (in particular after the
  `replace("Z", "+00:00")`) and an offset-naive one otherwise, and the
  subtraction at line 77 raises `TypeError` when its two operands differ in
  awareness — so the flag of the first and last parsed timestamps is exactly
  what that subtraction observes beyond the numeric values.
* The result of the XML parse of a document (`ET.parse` / `ET.fromstring`
  together with `findall(".//tcx:Trackpoint")`) is modelled as an
  `Option (List Trackpoint)`: `none` means the parser raised, `some tps` means
  it produced the (possibly empty) list of trackpoint elements.
* Python raises `ZeroDivisionError` on division by zero and `TypeError` on
  mixed-awareness `datetime` subtraction; to reason about such faults,
  `mkMetricsE` recomputes the metrics in `Except String` with every division
  checked (`divE`) and the line-77 subtraction checked (`durationOfE`),
  mirroring the positions of these operations in the source.
-/

namespace TcxParser


/-- A successfully parsed `datetime`: its absolute value in seconds and
whether `fromisoformat` produced an offset-aware value. Subtracting an
offset-naive from an offset-aware `datetime` (or vice versa) raises
`TypeError`. -/
structure Timestamp where
  seconds : ℚ
  aware : Bool
deriving DecidableEq, Repr

/-- One `Trackpoint` element: the five optional fields of one sample. -/
structure Trackpoint where
  time : Option (Option Timestamp)
  hr : Option (Option ℚ)
  cadence : Option (Option ℚ)
  altitude : Option (Option ℚ)
  distance : Option (Option ℚ)
deriving DecidableEq, Repr

/-- The flat metrics record returned by `_parse_tcx_tree` (its result dict). -/
structure Metrics where
  duration_sec : ℚ
  distance_m : ℚ
  avg_hr : ℚ
  max_hr : ℚ
  avg_cadence : ℚ
  elevation_gain_m : ℚ
  pace_min_per_km : ℚ
  hr_drift : ℚ
deriving DecidableEq, Repr

/-- Round-half-to-even to an integer, as Python's builtin `round` does. -/
def roundHalfEven (x : ℚ) : ℤ :=
  let n := ⌊x⌋
  let r := x - n
  if r < 1/2 then n
  else if 1/2 < r then n + 1
  else if 2 ∣ n then n else n + 1

/-- Python's `round(x, p)`. -/
def roundTo (p : ℕ) (x : ℚ) : ℚ :=
  ((roundHalfEven (x * 10 ^ p) : ℤ) : ℚ) / 10 ^ p

/-- The `times` list built by the extraction loop: the successfully parsed
timestamps, in document order (`times.append(...)` happens exactly when the
`Time` element is present with text and `datetime.fromisoformat` succeeds). -/
def timesOf (tps : List Trackpoint) : List Timestamp :=
  tps.filterMap fun tp => Option.join tp.time

/-- The `hrs` list built by the extraction loop. -/
def hrsOf (tps : List Trackpoint) : List ℚ :=
  tps.filterMap fun tp => Option.join tp.hr

/-- The `cadence` list built by the extraction loop. -/
def cadencesOf (tps : List Trackpoint) : List ℚ :=
  tps.filterMap fun tp => Option.join tp.cadence

/-- The `altitude` list built by the extraction loop. -/
def altitudesOf (tps : List Trackpoint) : List ℚ :=
  tps.filterMap fun tp => Option.join tp.altitude

/-- The `distance` list built by the extraction loop. -/
def distancesOf (tps : List Trackpoint) : List ℚ :=
  tps.filterMap fun tp => Option.join tp.distance

/-- The `times[0]` operand of line 77 (the default is never used: the
subtraction is only reached when `len(times) >= 2`). -/
def firstTime (tps : List Trackpoint) : Timestamp :=
  (timesOf tps).headD ⟨0, false⟩

/-- The `times[-1]` operand of line 77. -/
def lastTime (tps : List Trackpoint) : Timestamp :=
  (timesOf tps).getLastD ⟨0, false⟩

/-- Whether the subtraction `times[-1] - times[0]` at line 77 is defined:
it raises `TypeError` exactly when one operand is offset-aware and the
other offset-naive. -/
def timesComparable (tps : List Trackpoint) : Bool :=
  (lastTime tps).aware == (firstTime tps).aware

/-- Line 77: the value of `(times[-1] - times[0]).total_seconds()` when the
subtraction succeeds; the `TypeError` case is tracked by `durationOfE`. -/
def durationOf (tps : List Trackpoint) : ℚ :=
  (lastTime tps).seconds - (firstTime tps).seconds

/-- Line 77 with the `TypeError` of mixed-awareness subtraction visible. -/
def durationOfE (tps : List Trackpoint) : Except String ℚ :=
  if timesComparable tps then Except.ok (durationOf tps)
  else Except.error "TypeError"

/-- Line 82: `total_distance = distance[-1] if distance else 0.0`. -/
def totalDistanceOf (tps : List Trackpoint) : ℚ :=
  (distancesOf tps).getLastD 0

/-- The pattern `sum(xs) / len(xs) if xs else 0` (used for `avg_hr`, `avg_cad`). -/
def avgOr0 (xs : List ℚ) : ℚ :=
  if xs.isEmpty then 0 else xs.sum / xs.length

/-- Line 88: `max_hr = max(hrs) if hrs else 0`. -/
def maxOr0 : List ℚ → ℚ
  | [] => 0
  | x :: xs => xs.foldl max x

/-- Lines 98-102: the elevation-gain loop
    `for i in range(1, len(altitude)): diff = altitude[i] - altitude[i-1];
     if diff > 0: elev_gain += diff`. -/
def elevGainOf : List ℚ → ℚ
  | [] => 0
  | [_] => 0
  | a :: b :: rest => (if b - a > 0 then b - a else 0) + elevGainOf (b :: rest)

/-- Lines 107-110: pace with the divide-by-zero guard. -/
def paceOf (duration_sec total_distance : ℚ) : ℚ :=
  if total_distance > 0 then (duration_sec / 60) / (total_distance / 1000) else 0

/-- Lines 115-127: the HR-drift block, with its three guards. -/
def hrDriftOf (hrs : List ℚ) : ℚ :=
  if hrs.isEmpty then 0
  else
    let half := hrs.length / 2
    if half > 0 then
      let first_half := (hrs.take half).sum / (half : ℚ)
      let second_half := (hrs.drop half).sum / ((hrs.length - half : ℕ) : ℚ)
      if first_half > 0 then (second_half - first_half) / first_half else 0
    else 0

/-- Lines 132-141: the returned dict, every field rounded. -/
def mkMetrics (tps : List Trackpoint) : Metrics :=
  { duration_sec := roundTo 2 (durationOf tps)
    distance_m := roundTo 2 (totalDistanceOf tps)
    avg_hr := roundTo 2 (avgOr0 (hrsOf tps))
    max_hr := roundTo 2 (maxOr0 (hrsOf tps))
    avg_cadence := roundTo 2 (avgOr0 (cadencesOf tps))
    elevation_gain_m := roundTo 2 (elevGainOf (altitudesOf tps))
    pace_min_per_km := roundTo 3 (paceOf (durationOf tps) (totalDistanceOf tps))
    hr_drift := roundTo 4 (hrDriftOf (hrsOf tps)) }

/-- The whole of `_parse_tcx_tree`: `if not trackpoints: return None`,
the extraction loop, `if len(times) < 2: return None`, then the metrics. -/
def parseTcxTree (tps : List Trackpoint) : Option Metrics :=
  if tps.isEmpty then none
  else if (timesOf tps).length < 2 then none
  else some (mkMetrics tps)

/-- Division as Python performs it: raising on a zero divisor. -/
def divE (a b : ℚ) : Except String ℚ :=
  if b = 0 then Except.error "ZeroDivisionError" else Except.ok (a / b)

/-- Checked-division version of `avgOr0`. -/
def avgOr0E (xs : List ℚ) : Except String ℚ :=
  if xs.isEmpty then Except.ok 0 else divE xs.sum xs.length

/-- Checked-division version of `paceOf`. -/
def paceOfE (duration_sec total_distance : ℚ) : Except String ℚ :=
  if total_distance > 0 then divE (duration_sec / 60) (total_distance / 1000)
  else Except.ok 0

/-- Checked-division version of `hrDriftOf`. -/
def hrDriftOfE (hrs : List ℚ) : Except String ℚ :=
  if hrs.isEmpty then Except.ok 0
  else
    let half := hrs.length / 2
    if half > 0 then
      (divE (hrs.take half).sum (half : ℚ)).bind fun first_half =>
      (divE (hrs.drop half).sum ((hrs.length - half : ℕ) : ℚ)).bind fun second_half =>
      if first_half > 0 then divE (second_half - first_half) first_half
      else Except.ok 0
    else Except.ok 0

/-- The metrics computation with every fault site in the source checked: the
line-77 subtraction runs first (it precedes every division in the code), and
each division is checked. This makes a `TypeError` or `ZeroDivisionError`
visible as an `Except.error`. -/
def mkMetricsE (tps : List Trackpoint) : Except String Metrics :=
  (durationOfE tps).bind fun duration_sec =>
  (avgOr0E (hrsOf tps)).bind fun avg_hr =>
  (avgOr0E (cadencesOf tps)).bind fun avg_cad =>
  (paceOfE duration_sec (totalDistanceOf tps)).bind fun pace =>
  (hrDriftOfE (hrsOf tps)).bind fun drift =>
  Except.ok
    { duration_sec := roundTo 2 duration_sec
      distance_m := roundTo 2 (totalDistanceOf tps)
      avg_hr := roundTo 2 avg_hr
      max_hr := roundTo 2 (maxOr0 (hrsOf tps))
      avg_cadence := roundTo 2 avg_cad
      elevation_gain_m := roundTo 2 (elevGainOf (altitudesOf tps))
      pace_min_per_km := roundTo 3 pace
      hr_drift := roundTo 4 drift }

/-- Version of `_parse_tcx_tree` with exceptions made visible rather than assumed away. -/
def parseTcxTreeE (tps : List Trackpoint) : Except String (Option Metrics) :=
  if tps.isEmpty then Except.ok none
  else if (timesOf tps).length < 2 then Except.ok none
  else (mkMetricsE tps).map some

/-- Function `parse_tcx` (lines 147-156): the binary-stream entry point. The argument
is the outcome of `ET.parse(file_obj).getroot()` (`none` when it raised); the
`try/except` catches any fault of the tree walk as well, hence the match on
`parseTcxTreeE`. -/
def parse_tcx (doc : Option (List Trackpoint)) : Option Metrics :=
  match doc with
  | none => none
  | some tps =>
    match parseTcxTreeE tps with
    | Except.ok r => r
    | Except.error _ => none

/-- Function `parse_tcx_text` (lines 162-173): the decoded-text entry point, with the
same `try/except` shape over `ET.fromstring(text)`. -/
def parse_tcx_text (doc : Option (List Trackpoint)) : Option Metrics :=
  match doc with
  | none => none
  | some tps =>
    match parseTcxTreeE tps with
    | Except.ok r => r
    | Except.error _ => none

/-- An upload handle as `load_tcx_from_upload` observes it:
`binDoc` is what the binary path (`ET.parse` on the stream) yields,
`rewindOk` is whether `seek(0)`/`read()`/`decode("utf-8", errors="ignore")`
succeeds, and `textDoc` is what `ET.fromstring` yields on the decoded text. -/
structure Upload where
  binDoc : Option (List Trackpoint)
  rewindOk : Bool
  textDoc : Option (List Trackpoint)
deriving DecidableEq, Repr

/-- Function `load_tcx_from_upload` (lines 179-203). `if parsed:` is dict truthiness;
the dict returned by `_parse_tcx_tree` always has eight keys, so it is truthy
exactly when it is not `None`, which the match models. -/
def load_tcx_from_upload (upload : Option Upload) : Option Metrics :=
  match upload with
  | none => none
  | some u =>
    match parse_tcx u.binDoc with
    | some parsed => some parsed
    | none => if u.rewindOk then parse_tcx_text u.textDoc else none

/-- The specification's reading of elevation gain: the sum, over consecutive
pairs of the altitude-sample list, of the positive part of the delta. -/
def posDeltaSum (xs : List ℚ) : ℚ :=
  ((xs.zip xs.tail).map fun p => max (p.2 - p.1) 0).sum

/-- Treat a present-but-unparseable field exactly like an absent one. -/
def dropBadFields (tp : Trackpoint) : Trackpoint :=
  { time := (Option.join tp.time).map some
    hr := (Option.join tp.hr).map some
    cadence := (Option.join tp.cadence).map some
    altitude := (Option.join tp.altitude).map some
    distance := (Option.join tp.distance).map some }

/-- Mean of the first half of the samples, split at the midpoint by count
(`0` when the list has fewer than two samples, by division by zero). -/
def firstHalfAvg (hrs : List ℚ) : ℚ :=
  (hrs.take (hrs.length / 2)).sum / ((hrs.length / 2 : ℕ) : ℚ)

/-- Mean of the second half of the samples, split at the midpoint by count. -/
def secondHalfAvg (hrs : List ℚ) : ℚ :=
  (hrs.drop (hrs.length / 2)).sum / ((hrs.length - hrs.length / 2 : ℕ) : ℚ)

/-- A trackpoint carrying only an offset-aware parsed timestamp. -/
def tpTime (t : ℚ) : Trackpoint := ⟨some (some ⟨t, true⟩), none, none, none, none⟩

/-- A trackpoint carrying an offset-naive parsed timestamp. -/
def tpTimeNaive (t : ℚ) : Trackpoint := ⟨some (some ⟨t, false⟩), none, none, none, none⟩

/-- A trackpoint carrying a parsed timestamp and a parsed altitude. -/
def tpTimeAlt (t a : ℚ) : Trackpoint := ⟨some (some ⟨t, true⟩), none, none, some (some a), none⟩

/-- A trackpoint carrying only a parsed altitude. -/
def tpAlt (a : ℚ) : Trackpoint := ⟨none, none, none, some (some a), none⟩

/-- A trackpoint carrying a parsed timestamp and a parsed HR sample. -/
def tpTimeHr (t h : ℚ) : Trackpoint := ⟨some (some ⟨t, true⟩), some (some h), none, none, none⟩

/-- A trackpoint carrying only a parsed HR sample. -/
def tpHr (h : ℚ) : Trackpoint := ⟨none, some (some h), none, none, none⟩

/-- A trackpoint carrying a parsed timestamp and a parsed distance sample. -/
def tpTimeDist (t d : ℚ) : Trackpoint := ⟨some (some ⟨t, true⟩), none, none, none, some (some d)⟩

/-- A trackpoint carrying only a parsed distance sample. -/
def tpDist (d : ℚ) : Trackpoint := ⟨none, none, none, none, some (some d)⟩

/-- Two timestamped trackpoints, 60 seconds apart, in ascending order. -/
def traceAsc : List Trackpoint := [tpTime 0, tpTime 60]

/-- Two timestamped trackpoints whose timestamps decrease. -/
def traceDesc : List Trackpoint := [tpTime 10, tpTime 0]

/-- Two parseable trackpoints whose parsed timestamps mix an offset-aware
value (a `Z`-suffixed `Time` text) with an offset-naive one. -/
def traceMixed : List Trackpoint := [tpTime 0, tpTimeNaive 60]

/-- A trace with two timestamps and altitude samples `[100, 105, 102, 110]`. -/
def traceAlt : List Trackpoint :=
  [tpTimeAlt 0 100, tpTimeAlt 60 105, tpAlt 102, tpAlt 110]

/-- A trace with two timestamps and HR samples `[140, 150, 160, 170]`. -/
def traceHr : List Trackpoint :=
  [tpTimeHr 0 140, tpTimeHr 60 150, tpHr 160, tpHr 170]

/-- A trace with duration 600 s and distance samples `[0, 500, 1609.34]`. -/
def traceDist : List Trackpoint :=
  [tpTimeDist 0 0, tpTimeDist 600 500, tpDist 1609.34]

/-- A trace with two timestamps and a single HR sample. -/
def traceOneHr : List Trackpoint := [tpTimeHr 0 140, tpTime 60]

/-- An upload whose binary path fails, rewinds cleanly, and parses as text. -/
def uploadTextOnly : Upload := ⟨none, true, some traceAsc⟩

theorem avgOr0E_ok (xs : List ℚ) : avgOr0E xs = Except.ok (avgOr0 xs) := by
  rcases xs with _ | ⟨x, xs⟩
  · rfl
  · have hne : ((xs.length : ℚ) + 1) ≠ 0 := by positivity
    simp [avgOr0E, avgOr0, divE, hne]

theorem paceOfE_ok (d t : ℚ) : paceOfE d t = Except.ok (paceOf d t) := by
  unfold paceOfE paceOf divE
  split
  · next h =>
    rw [if_neg]
    intro h0
    rcases div_eq_zero_iff.mp h0 with h0 | h0
    · exact absurd h0 (ne_of_gt h)
    · norm_num at h0
  · rfl

theorem half_lt_length {n : ℕ} (h : 0 < n / 2) : n / 2 < n :=
  Nat.div_lt_self (lt_of_lt_of_le h (Nat.div_le_self n 2)) one_lt_two

theorem hrDriftOfE_ok (hrs : List ℚ) : hrDriftOfE hrs = Except.ok (hrDriftOf hrs) := by
  simp only [hrDriftOfE, hrDriftOf]
  split
  · rfl
  · split
    · next hhalf =>
      have h1 : ((hrs.length / 2 : ℕ) : ℚ) ≠ 0 := Nat.cast_ne_zero.mpr (by omega)
      have h2 : ((hrs.length - hrs.length / 2 : ℕ) : ℚ) ≠ 0 :=
        Nat.cast_ne_zero.mpr (by have := half_lt_length hhalf; omega)
      simp only [divE, if_neg h1, if_neg h2, Except.bind]
      split
      · next hf => rw [if_neg (ne_of_gt hf)]
      · rfl
    · rfl

theorem mkMetricsE_ok {tps : List Trackpoint} (h : timesComparable tps = true) :
    mkMetricsE tps = Except.ok (mkMetrics tps) := by
  simp only [mkMetricsE, durationOfE, h, if_true, avgOr0E_ok, paceOfE_ok,
    hrDriftOfE_ok, Except.bind, mkMetrics]

theorem mkMetricsE_mixed {tps : List Trackpoint} (h : timesComparable tps = false) :
    mkMetricsE tps = Except.error "TypeError" := by
  simp only [mkMetricsE, durationOfE, h, Bool.false_eq_true, if_false, Except.bind]

theorem parseTcxTreeE_spec (tps : List Trackpoint) :
    parseTcxTreeE tps =
      if tps.isEmpty then Except.ok none
      else if (timesOf tps).length < 2 then Except.ok none
      else if timesComparable tps then Except.ok (some (mkMetrics tps))
      else Except.error "TypeError" := by
  unfold parseTcxTreeE
  split_ifs with h1 h2 h3
  · rfl
  · rfl
  · rw [mkMetricsE_ok h3]; rfl
  · rw [mkMetricsE_mixed (by simpa using h3)]; rfl

theorem parse_tcx_some (tps : List Trackpoint) :
    parse_tcx (some tps) =
      if timesComparable tps then parseTcxTree tps else none := by
  have hl : parse_tcx (some tps) =
      match parseTcxTreeE tps with
      | Except.ok r => r
      | Except.error _ => none := rfl
  rw [hl, parseTcxTreeE_spec]
  unfold parseTcxTree
  split_ifs <;> rfl

theorem parse_tcx_text_eq (doc : Option (List Trackpoint)) :
    parse_tcx_text doc = parse_tcx doc := by
  cases doc <;> rfl

theorem parseTcxTree_none_iff (tps : List Trackpoint) :
    parseTcxTree tps = none ↔ tps = [] ∨ (timesOf tps).length < 2 := by
  unfold parseTcxTree
  split_ifs with h1 h2
  · simp [List.isEmpty_iff.mp h1]
  · simp [h2]
  · simp only [List.isEmpty_iff] at h1
    simp [h1, h2]

theorem parseTcxTree_some_iff {tps : List Trackpoint} {m : Metrics} :
    parseTcxTree tps = some m ↔
      tps ≠ [] ∧ 2 ≤ (timesOf tps).length ∧ m = mkMetrics tps := by
  unfold parseTcxTree
  split_ifs with h1 h2
  · simp [List.isEmpty_iff.mp h1]
  · simp only [List.isEmpty_iff] at h1
    constructor
    · intro h; cases h
    · rintro ⟨-, hle, -⟩; omega
  · simp only [List.isEmpty_iff] at h1
    constructor
    · intro h
      exact ⟨h1, by omega, (Option.some_injective _ h).symm⟩
    · rintro ⟨-, -, rfl⟩; rfl

theorem elevGainOf_eq_posDeltaSum : ∀ xs : List ℚ, elevGainOf xs = posDeltaSum xs
  | [] => rfl
  | [_] => rfl
  | a :: b :: rest => by
    have ih := elevGainOf_eq_posDeltaSum (b :: rest)
    simp only [elevGainOf, posDeltaSum, List.tail_cons, List.zip_cons_cons,
      List.map_cons, List.sum_cons] at *
    rw [ih]
    congr 1
    rcases le_or_lt (b - a) 0 with h | h
    · rw [if_neg (not_lt.mpr h), max_eq_right h]
    · rw [if_pos h, max_eq_left h.le]

theorem roundTo_mul_den (p : ℕ) (x : ℚ) : ((roundTo p x) * 10 ^ p).den = 1 := by
  unfold roundTo
  rw [div_mul_cancel₀]
  · exact Rat.den_intCast _
  · positivity

theorem roundHalfEven_nonneg {x : ℚ} (h : 0 ≤ x) : 0 ≤ roundHalfEven x := by
  have hn : (0:ℤ) ≤ ⌊x⌋ := Int.floor_nonneg.mpr h
  simp only [roundHalfEven]
  split_ifs <;> omega

theorem roundTo_nonneg {p : ℕ} {x : ℚ} (h : 0 ≤ x) : 0 ≤ roundTo p x := by
  unfold roundTo
  apply div_nonneg _ (by positivity)
  exact_mod_cast roundHalfEven_nonneg (by positivity)

theorem roundTo_zero (p : ℕ) : roundTo p 0 = 0 := by
  norm_num [roundTo, roundHalfEven]

theorem headD_le_getLastD : ∀ {l : List ℚ}, l.Sorted (· ≤ ·) → l ≠ [] →
    l.headD 0 ≤ l.getLastD 0
  | [], _, hne => absurd rfl hne
  | [a], _, _ => le_refl a
  | a :: b :: t, hs, _ => by
    have hab : a ≤ b := (List.sorted_cons.mp hs).1 b (List.mem_cons_self b t)
    have ih := headD_le_getLastD (List.sorted_cons.mp hs).2 (List.cons_ne_nil b t)
    calc (a :: b :: t).headD 0 = a := rfl
      _ ≤ b := hab
      _ ≤ (b :: t).getLastD 0 := ih
      _ = (a :: b :: t).getLastD 0 := by
          rw [List.getLastD_cons, List.getLastD_cons, List.getLastD_cons]

theorem join_map_some {α : Type} (x : Option (Option α)) :
    Option.join ((Option.join x).map some) = Option.join x := by
  rcases x with _ | ⟨_ | v⟩ <;> rfl

theorem filterMap_dropBadFields {α : Type} (f : Trackpoint → Option (Option α))
    (hf : ∀ tp, f (dropBadFields tp) = (Option.join (f tp)).map some)
    (tps : List Trackpoint) :
    (tps.map dropBadFields).filterMap (fun tp => Option.join (f tp)) =
      tps.filterMap (fun tp => Option.join (f tp)) := by
  rw [List.filterMap_map]
  congr 1
  funext tp
  simp only [Function.comp_apply, hf, join_map_some]

theorem isEmpty_map {α β : Type} (f : α → β) (l : List α) :
    (l.map f).isEmpty = l.isEmpty := by
  cases l <;> rfl

theorem timesOf_dropBadFields (tps : List Trackpoint) :
    timesOf (tps.map dropBadFields) = timesOf tps := by
  unfold timesOf
  exact filterMap_dropBadFields (fun tp => tp.time) (fun _ => rfl) tps

theorem hrsOf_dropBadFields (tps : List Trackpoint) :
    hrsOf (tps.map dropBadFields) = hrsOf tps := by
  unfold hrsOf
  exact filterMap_dropBadFields (fun tp => tp.hr) (fun _ => rfl) tps

theorem cadencesOf_dropBadFields (tps : List Trackpoint) :
    cadencesOf (tps.map dropBadFields) = cadencesOf tps := by
  unfold cadencesOf
  exact filterMap_dropBadFields (fun tp => tp.cadence) (fun _ => rfl) tps

theorem altitudesOf_dropBadFields (tps : List Trackpoint) :
    altitudesOf (tps.map dropBadFields) = altitudesOf tps := by
  unfold altitudesOf
  exact filterMap_dropBadFields (fun tp => tp.altitude) (fun _ => rfl) tps

theorem distancesOf_dropBadFields (tps : List Trackpoint) :
    distancesOf (tps.map dropBadFields) = distancesOf tps := by
  unfold distancesOf
  exact filterMap_dropBadFields (fun tp => tp.distance) (fun _ => rfl) tps

theorem parseTcxTree_dropBadFields (tps : List Trackpoint) :
    parseTcxTree (tps.map dropBadFields) = parseTcxTree tps := by
  simp only [parseTcxTree, mkMetrics, durationOf, lastTime, firstTime,
    totalDistanceOf, isEmpty_map, timesOf_dropBadFields, hrsOf_dropBadFields,
    cadencesOf_dropBadFields, altitudesOf_dropBadFields, distancesOf_dropBadFields]

theorem parseTcxTreeE_dropBadFields (tps : List Trackpoint) :
    parseTcxTreeE (tps.map dropBadFields) = parseTcxTreeE tps := by
  simp only [parseTcxTreeE, mkMetricsE, durationOfE, timesComparable,
    durationOf, lastTime, firstTime, totalDistanceOf, isEmpty_map,
    timesOf_dropBadFields, hrsOf_dropBadFields, cadencesOf_dropBadFields,
    altitudesOf_dropBadFields, distancesOf_dropBadFields]

theorem parse_tcx_dropBadFields (tps : List Trackpoint) :
    parse_tcx (some (tps.map dropBadFields)) = parse_tcx (some tps) := by
  have h1 : parse_tcx (some (tps.map dropBadFields)) =
      match parseTcxTreeE (tps.map dropBadFields) with
      | Except.ok r => r
      | Except.error _ => none := rfl
  have h2 : parse_tcx (some tps) =
      match parseTcxTreeE tps with
      | Except.ok r => r
      | Except.error _ => none := rfl
  rw [h1, h2, parseTcxTreeE_dropBadFields]

theorem headD_map_seconds (l : List Timestamp) :
    (l.map Timestamp.seconds).headD 0 = (l.headD ⟨0, false⟩).seconds := by
  cases l <;> rfl

theorem getLastD_map_seconds : ∀ l : List Timestamp,
    (l.map Timestamp.seconds).getLastD 0 = (l.getLastD ⟨0, false⟩).seconds
  | [] => rfl
  | [_] => rfl
  | a :: b :: t => by
    have ih := getLastD_map_seconds (b :: t)
    simp only [List.map_cons, List.getLastD_cons] at ih ⊢
    exact ih

theorem hrDriftOf_cases (hrs : List ℚ) :
    hrDriftOf hrs =
      if 0 < firstHalfAvg hrs
        then (secondHalfAvg hrs - firstHalfAvg hrs) / firstHalfAvg hrs
        else 0 := by
  unfold hrDriftOf firstHalfAvg secondHalfAvg
  rcases hrs with _ | ⟨x, xs⟩
  · norm_num
  · simp only [List.isEmpty_cons, Bool.false_eq_true, if_false]
    rcases Nat.eq_zero_or_pos ((x :: xs).length / 2) with h0 | hpos
    · rw [if_neg (by omega), h0]
      norm_num
    · rw [if_pos hpos]

theorem hrDriftOf_single (x : ℚ) : hrDriftOf [x] = 0 := by
  norm_num [hrDriftOf]

/-- C1 counterexample: a parseable document whose trackpoint list is nonempty
and carries two successfully parsed timestamps, yet `parse_tcx` returns the
sentinel: the first parsed timestamp is offset-aware and the last offset-naive,
so the line-77 subtraction raises `TypeError`, which the outer `try/except`
maps to the sentinel — a fourth trigger the claimed characterization omits. -/
theorem c1_counterexample :
    parse_tcx (some traceMixed) = none ∧
    traceMixed ≠ [] ∧ 2 ≤ (timesOf traceMixed).length := by
  refine ⟨rfl, ?_, ?_⟩
  · simp [traceMixed]
  · decide

/-- C1 amended: the reducer returns the no-result sentinel exactly when the
document is unparseable, contains no Trackpoint elements, has fewer than two
trackpoints with a successfully parsed timestamp, or its first and last parsed
timestamps mix an offset-aware and an offset-naive value (the line-77
`TypeError`, caught and mapped to the sentinel); in particular every trace
with 0 or 1 timestamped trackpoints yields the sentinel. -/
theorem c1_noresult_iff (doc : Option (List Trackpoint)) :
    parse_tcx doc = none ↔
      doc = none ∨ ∃ tps, doc = some tps ∧
        (tps = [] ∨ (timesOf tps).length < 2 ∨ timesComparable tps = false) := by
  rcases doc with _ | tps
  · simp [parse_tcx]
  · rw [parse_tcx_some]
    simp only [reduceCtorEq, false_or, Option.some.injEq]
    by_cases hc : timesComparable tps = true
    · rw [hc, if_pos rfl]
      constructor
      · intro h
        refine ⟨tps, rfl, ?_⟩
        rcases (parseTcxTree_none_iff tps).mp h with h1 | h2
        · exact Or.inl h1
        · exact Or.inr (Or.inl h2)
      · rintro ⟨tps', heq, hcase⟩
        obtain rfl : tps = tps' := heq
        apply (parseTcxTree_none_iff tps).mpr
        rcases hcase with h1 | h2 | h3
        · exact Or.inl h1
        · exact Or.inr h2
        · rw [h3] at hc
          exact Bool.noConfusion hc
    · have hcf : timesComparable tps = false := by
        revert hc
        cases timesComparable tps <;> simp
      rw [hcf]
      simp only [Bool.false_eq_true, if_false]
      constructor
      · intro _
        exact ⟨tps, rfl, Or.inr (Or.inr hcf)⟩
      · intro _
        trivial

/-- C2: no exception ever reaches the caller of either entry point: whatever
the exception-visible tree walk produces — a value, or an internal fault,
which can only be the line-77 `TypeError` (divisions never fault) — the
`try/except` of both entry points maps it to a plain result, every failure
becoming the sentinel; a document-level parse failure yields the sentinel;
the text entry point agrees with the binary one; and replacing a
present-but-unparseable field by an absent one never changes the result
(field-level failures degrade to missing data, not faults). -/
theorem c2_never_raises :
    (∀ tps, (∃ r, parseTcxTreeE tps = Except.ok r ∧ parse_tcx (some tps) = r) ∨
      (∃ e, parseTcxTreeE tps = Except.error e ∧ parse_tcx (some tps) = none)) ∧
    (∀ tps e, parseTcxTreeE tps = Except.error e → e = "TypeError") ∧
    parse_tcx none = none ∧ parse_tcx_text none = none ∧
    (∀ doc, parse_tcx_text doc = parse_tcx doc) ∧
    (∀ tps, parseTcxTree (tps.map dropBadFields) = parseTcxTree tps) ∧
    (∀ tps, parse_tcx (some (tps.map dropBadFields)) = parse_tcx (some tps)) := by
  refine ⟨?_, ?_, rfl, rfl, parse_tcx_text_eq, parseTcxTree_dropBadFields,
    parse_tcx_dropBadFields⟩
  · intro tps
    have hl : parse_tcx (some tps) =
        match parseTcxTreeE tps with
        | Except.ok r => r
        | Except.error _ => none := rfl
    cases he : parseTcxTreeE tps with
    | ok r => exact Or.inl ⟨r, rfl, by rw [hl, he]⟩
    | error e => exact Or.inr ⟨e, rfl, by rw [hl, he]⟩
  · intro tps e h
    rw [parseTcxTreeE_spec] at h
    split_ifs at h
    all_goals
      first
        | exact Except.noConfusion h
        | (injection h with he; exact he.symm)

/-- C3 counterexample: on a trace whose two parsed timestamps decrease, the
reducer returns a record with a strictly negative `duration_sec`, refuting the
claim that `duration_sec >= 0` holds for every returned record. -/
theorem c3_counterexample :
    ∃ m, parseTcxTree traceDesc = some m ∧ m.duration_sec < 0 := by
  refine ⟨mkMetrics traceDesc, rfl, ?_⟩
  show roundTo 2 (durationOf traceDesc) < 0
  norm_num [durationOf, lastTime, firstTime, timesOf, traceDesc, tpTime,
    List.filterMap_cons, List.filterMap_nil, Option.some_bind, roundTo,
    roundHalfEven]

/-- C3 amended: `duration_sec` is the rounded difference between the seconds
values of the last and first parsed timestamps; it is non-negative whenever
the parsed timestamp sequence is non-decreasing (for a non-monotone trace it
can be negative, and the reducer tolerates such traces without fault). -/
theorem c3_duration (tps : List Trackpoint) (m : Metrics)
    (h : parseTcxTree tps = some m) :
    m.duration_sec = roundTo 2 ((lastTime tps).seconds - (firstTime tps).seconds) ∧
    (((timesOf tps).map Timestamp.seconds).Sorted (· ≤ ·) → 0 ≤ m.duration_sec) := by
  obtain ⟨-, hlen, rfl⟩ := parseTcxTree_some_iff.mp h
  refine ⟨rfl, fun hs => ?_⟩
  show 0 ≤ roundTo 2 (durationOf tps)
  apply roundTo_nonneg
  have hne : (timesOf tps).map Timestamp.seconds ≠ [] := by
    intro he
    have h0 : ((timesOf tps).map Timestamp.seconds).length = 0 := by rw [he]; rfl
    rw [List.length_map] at h0
    omega
  have hle := headD_le_getLastD hs hne
  rw [headD_map_seconds, getLastD_map_seconds] at hle
  unfold durationOf lastTime firstTime
  linarith

/-- C3 witness: the amended statement at the concrete ascending trace. -/
theorem c3_duration_witness :
    (mkMetrics traceAsc).duration_sec =
      roundTo 2 ((lastTime traceAsc).seconds - (firstTime traceAsc).seconds) ∧
    0 ≤ (mkMetrics traceAsc).duration_sec := by
  obtain ⟨h1, h2⟩ := c3_duration traceAsc (mkMetrics traceAsc) rfl
  refine ⟨h1, h2 ?_⟩
  norm_num [timesOf, traceAsc, tpTime, List.filterMap_cons, List.filterMap_nil,
    Option.some_bind, List.map_cons, List.map_nil, List.sorted_cons]

/-- C4: when the binary-path parse fails, a successful rewind hands the result
over to the text path unchanged, and the no-result sentinel comes back only
when the binary attempt has failed and the text attempt yields nothing. -/
theorem c4_upload_fallback (u : Upload) :
    (parse_tcx u.binDoc = none → u.rewindOk = true →
      load_tcx_from_upload (some u) = parse_tcx_text u.textDoc) ∧
    (load_tcx_from_upload (some u) = none →
      parse_tcx u.binDoc = none ∧
        (u.rewindOk = true → parse_tcx_text u.textDoc = none)) := by
  have hload : load_tcx_from_upload (some u) =
      match parse_tcx u.binDoc with
      | some parsed => some parsed
      | none => if u.rewindOk then parse_tcx_text u.textDoc else none := rfl
  rw [hload]
  constructor
  · intro hb hr
    rw [hb, hr]
    simp
  · intro hl
    cases hpb : parse_tcx u.binDoc with
    | some m => rw [hpb] at hl; cases hl
    | none =>
      refine ⟨rfl, fun hr => ?_⟩
      rw [hpb, hr] at hl
      simpa using hl

/-- C4 witness: the fallback equation at a concrete upload. -/
theorem c4_upload_fallback_witness :
    load_tcx_from_upload (some uploadTextOnly) =
      parse_tcx_text uploadTextOnly.textDoc :=
  (c4_upload_fallback uploadTextOnly).1 rfl rfl

/-- C5: the elevation-gain field is the rounded sum of the positive
consecutive altitude deltas, and on the altitude samples
`[100, 105, 102, 110]` that sum is `13`. -/
theorem c5_elevation_gain :
    (∀ (tps : List Trackpoint) (m : Metrics), parseTcxTree tps = some m →
      m.elevation_gain_m = roundTo 2 (posDeltaSum (altitudesOf tps))) ∧
    posDeltaSum [100, 105, 102, 110] = 13 := by
  constructor
  · intro tps m h
    obtain ⟨-, -, rfl⟩ := parseTcxTree_some_iff.mp h
    show roundTo 2 (elevGainOf (altitudesOf tps)) = _
    rw [elevGainOf_eq_posDeltaSum]
  · rw [← elevGainOf_eq_posDeltaSum]
    norm_num [elevGainOf]

/-- C5 witness: the general statement applied to the concrete altitude trace. -/
theorem c5_elevation_gain_witness :
    (mkMetrics traceAlt).elevation_gain_m =
      roundTo 2 (posDeltaSum (altitudesOf traceAlt)) :=
  c5_elevation_gain.1 traceAlt (mkMetrics traceAlt) rfl

/-- C6: the drift field is the rounded relative change between the count-split
half averages when the first-half average is positive, and `0` when that
average is zero or there are no HR samples; on `[140, 150, 160, 170]` the
drift is `(165 - 145) / 145`, which rounds to `0.1379`. -/
theorem c6_hr_drift :
    (∀ (tps : List Trackpoint) (m : Metrics), parseTcxTree tps = some m →
      (0 < firstHalfAvg (hrsOf tps) →
        m.hr_drift = roundTo 4
          ((secondHalfAvg (hrsOf tps) - firstHalfAvg (hrsOf tps)) /
            firstHalfAvg (hrsOf tps))) ∧
      (firstHalfAvg (hrsOf tps) = 0 → m.hr_drift = 0) ∧
      (hrsOf tps = [] → m.hr_drift = 0)) ∧
    hrDriftOf [140, 150, 160, 170] = (165 - 145) / 145 ∧
    roundTo 4 ((165 - 145) / 145) = 0.1379 := by
  refine ⟨?_, ?_, ?_⟩
  · intro tps m h
    obtain ⟨-, -, rfl⟩ := parseTcxTree_some_iff.mp h
    have hshow : (mkMetrics tps).hr_drift = roundTo 4 (hrDriftOf (hrsOf tps)) := rfl
    rw [hshow, hrDriftOf_cases]
    refine ⟨fun hpos => ?_, fun h0 => ?_, fun hnil => ?_⟩
    · rw [if_pos hpos]
    · rw [if_neg (by rw [h0]; exact lt_irrefl 0), roundTo_zero]
    · rw [if_neg (by rw [hnil]; norm_num [firstHalfAvg]), roundTo_zero]
  · rw [hrDriftOf_cases]
    norm_num [firstHalfAvg, secondHalfAvg]
  · norm_num [roundTo, roundHalfEven]

/-- C6 witness: the drift formula at the concrete HR trace. -/
theorem c6_hr_drift_witness :
    (mkMetrics traceHr).hr_drift = roundTo 4
      ((secondHalfAvg (hrsOf traceHr) - firstHalfAvg (hrsOf traceHr)) /
        firstHalfAvg (hrsOf traceHr)) :=
  (c6_hr_drift.1 traceHr (mkMetrics traceHr) rfl).1 (by
    norm_num [firstHalfAvg, hrsOf, traceHr, tpTimeHr, tpHr, List.filterMap_cons,
      List.filterMap_nil, Option.some_bind])

/-- C7: pace is the rounded ratio of duration to distance when the total
distance is positive, is `0` when the total distance is `0` (in particular
when there are no distance samples), and the checked-division pace
computation succeeds, so the division at lines 107-110 never faults,
whatever the duration. -/
theorem c7_pace (tps : List Trackpoint) (m : Metrics)
    (h : parseTcxTree tps = some m) :
    (0 < totalDistanceOf tps →
      m.pace_min_per_km =
        roundTo 3 ((durationOf tps / 60) / (totalDistanceOf tps / 1000))) ∧
    (totalDistanceOf tps = 0 → m.pace_min_per_km = 0) ∧
    paceOfE (durationOf tps) (totalDistanceOf tps) =
      Except.ok (paceOf (durationOf tps) (totalDistanceOf tps)) := by
  obtain ⟨-, -, rfl⟩ := parseTcxTree_some_iff.mp h
  have hshow : (mkMetrics tps).pace_min_per_km =
      roundTo 3 (paceOf (durationOf tps) (totalDistanceOf tps)) := rfl
  refine ⟨fun hpos => ?_, fun h0 => ?_, paceOfE_ok _ _⟩
  · rw [hshow, paceOf, if_pos hpos]
  · rw [hshow, paceOf, if_neg (by rw [h0]; exact lt_irrefl 0), roundTo_zero]

/-- C7 witness: the pace formula at the concrete distance trace. -/
theorem c7_pace_witness :
    (mkMetrics traceDist).pace_min_per_km =
      roundTo 3 ((durationOf traceDist / 60) / (totalDistanceOf traceDist / 1000)) :=
  (c7_pace traceDist (mkMetrics traceDist) rfl).1 (by
    norm_num [totalDistanceOf, distancesOf, traceDist, tpTimeDist, tpDist,
      List.filterMap_cons, List.filterMap_nil, Option.some_bind])

/-- C8: every field of a returned record carries its documented fixed decimal
precision: multiplying by `10^2` (duration, distance, HR, cadence, elevation),
`10^3` (pace) or `10^4` (drift) yields an integer. -/
theorem c8_rounding (tps : List Trackpoint) (m : Metrics)
    (h : parseTcxTree tps = some m) :
    (m.duration_sec * 10 ^ 2).den = 1 ∧ (m.distance_m * 10 ^ 2).den = 1 ∧
    (m.avg_hr * 10 ^ 2).den = 1 ∧ (m.max_hr * 10 ^ 2).den = 1 ∧
    (m.avg_cadence * 10 ^ 2).den = 1 ∧ (m.elevation_gain_m * 10 ^ 2).den = 1 ∧
    (m.pace_min_per_km * 10 ^ 3).den = 1 ∧ (m.hr_drift * 10 ^ 4).den = 1 := by
  obtain ⟨-, -, rfl⟩ := parseTcxTree_some_iff.mp h
  exact ⟨roundTo_mul_den 2 _, roundTo_mul_den 2 _, roundTo_mul_den 2 _,
    roundTo_mul_den 2 _, roundTo_mul_den 2 _, roundTo_mul_den 2 _,
    roundTo_mul_den 3 _, roundTo_mul_den 4 _⟩

/-- C8 witness: the precision statement at the concrete ascending trace. -/
theorem c8_rounding_witness :
    ((mkMetrics traceAsc).duration_sec * 10 ^ 2).den = 1 ∧
    ((mkMetrics traceAsc).distance_m * 10 ^ 2).den = 1 ∧
    ((mkMetrics traceAsc).avg_hr * 10 ^ 2).den = 1 ∧
    ((mkMetrics traceAsc).max_hr * 10 ^ 2).den = 1 ∧
    ((mkMetrics traceAsc).avg_cadence * 10 ^ 2).den = 1 ∧
    ((mkMetrics traceAsc).elevation_gain_m * 10 ^ 2).den = 1 ∧
    ((mkMetrics traceAsc).pace_min_per_km * 10 ^ 3).den = 1 ∧
    ((mkMetrics traceAsc).hr_drift * 10 ^ 4).den = 1 :=
  c8_rounding traceAsc (mkMetrics traceAsc) rfl

/-- C9: the reducer is deterministic: each entry point is a pure function of
its input alone, so two runs on equal inputs yield identical output; the
embedding threads no clock or external state. -/
theorem c9_deterministic :
    (∀ d₁ d₂ : Option (List Trackpoint), d₁ = d₂ → parse_tcx d₁ = parse_tcx d₂) ∧
    (∀ d₁ d₂ : Option (List Trackpoint), d₁ = d₂ →
      parse_tcx_text d₁ = parse_tcx_text d₂) ∧
    (∀ u₁ u₂ : Option Upload, u₁ = u₂ →
      load_tcx_from_upload u₁ = load_tcx_from_upload u₂) :=
  ⟨fun _ _ h => h ▸ rfl, fun _ _ h => h ▸ rfl, fun _ _ h => h ▸ rfl⟩

/-- C9 witness: two runs on the equal concrete upload agree. -/
theorem c9_deterministic_witness :
    load_tcx_from_upload (some uploadTextOnly) =
      load_tcx_from_upload (some uploadTextOnly) :=
  c9_deterministic.2.2 (some uploadTextOnly) (some uploadTextOnly) rfl

/-- C10: a trace yielding a record with exactly one HR sample has drift `0`
(the count-split leaves the first half empty and the `half > 0` guard fires),
and the checked-division run of the drift block returns `Except.ok 0`
without executing any division: no division by zero occurs. -/
theorem c10_single_hr_sample (tps : List Trackpoint) (m : Metrics)
    (h : parseTcxTree tps = some m) (hh : (hrsOf tps).length = 1) :
    m.hr_drift = 0 ∧ hrDriftOfE (hrsOf tps) = Except.ok 0 := by
  obtain ⟨x, hx⟩ := List.length_eq_one.mp hh
  constructor
  · obtain ⟨-, -, rfl⟩ := parseTcxTree_some_iff.mp h
    show roundTo 4 (hrDriftOf (hrsOf tps)) = 0
    rw [hx, hrDriftOf_single, roundTo_zero]
  · rw [hx]
    norm_num [hrDriftOfE]

/-- C10 witness: the single-HR-sample statement at a concrete trace. -/
theorem c10_single_hr_sample_witness :
    (mkMetrics traceOneHr).hr_drift = 0 ∧
    hrDriftOfE (hrsOf traceOneHr) = Except.ok 0 :=
  c10_single_hr_sample traceOneHr (mkMetrics traceOneHr) rfl rfl

end TcxParser
